import Mathlib

/-!
Verification of the usdt0 bridge protocol adapter for EVM chains
(`wdk-protocol-bridge-usdt0-evm`).

The repository ships several successive versions of the same core logic.
We embed the variants the claims refer to:

* variant A — the implementation using BigInt arithmetic throughout
  (`FEE_TOLERANCE = 999n`, `ERC_4337_FEE_BUFFER = 1_100n`), whose
  `bridge(options, config)` issues an approval transaction followed by the
  OFT send transaction and whose max-fee guard tests
  `bridgeMaxFee !== undefined && fee + bridgeFee >= bridgeMaxFee`;
* variant C — the `@tetherto`-scoped implementation whose `_getOftContract`
  additionally rejects a target chain equal to the source chain;
* variant D — the implementation using JavaScript Number arithmetic
  (`FEE_TOLERANCE = 0.999`, `ERC4337_FEE_BUFFER = 1.1`), whose max-fee
  guard tests `bridgeMaxFee && fee + bridgeFee > bridgeMaxFee` and whose
  standard-account path submits both transactions through `Promise.all`;
* variant B — the oldest implementation, only where a claim cites it
  (its `_getOftContractAddress` probe).

External collaborators (ethers contract objects and ABI encoding, the
LayerZero/TON/Tron address encoders, the wallet accounts) are modelled as
an oracle environment `Env`; everything the adapter itself computes is
translated directly from the JavaScript source.
-/

deriving instance DecidableEq for Except

namespace Usdt0

/-- One entry of the static chain registry (`BLOCKCHAINS` / `CHAIN_CONFIG`):
optional bridge-contract addresses by kind, the optional fee-conversion
helper, the LayerZero endpoint id and the numeric chain id. -/
structure ChainEntry where
  oftContract : Option String
  legacyMeshContract : Option String
  xautOftContract : Option String
  transactionValueHelper : Option String
  eid : Nat
  chainId : Nat
deriving DecidableEq, Repr

/-- The static registry `BLOCKCHAINS` of variant A, in source order
(ethereum, arbitrum, polygon, berachain, ink, ton, tron).  Variant C's
`BLOCKCHAINS` lists exactly the same entries in the same order. -/
def BLOCKCHAINS : List (String × ChainEntry) :=
  [ ("ethereum",
      { oftContract := some "0x6C96dE32CEa08842dcc4058c14d3aaAD7Fa41dee"
        legacyMeshContract := some "0x811ed79dB9D34E83BDB73DF6c3e07961Cfb0D5c0"
        xautOftContract := some "0xb9c2321BB7D0Db468f570D10A424d1Cc8EFd696C"
        transactionValueHelper := none
        eid := 30101
        chainId := 1 }),
    ("arbitrum",
      { oftContract := some "0x14E4A1B13bf7F943c8ff7C51fb60FA964A298D92"
        legacyMeshContract := some "0x238A52455a1EF6C987CaC94b28B4081aFE50ba06"
        xautOftContract := some "0xf40542a7B66AD7C68C459EE3679635D2fDB6dF39"
        transactionValueHelper := some "0xa90f03c856D01F698E7071B393387cd75a8a319A"
        eid := 30110
        chainId := 42161 }),
    ("polygon",
      { oftContract := none
        legacyMeshContract := none
        xautOftContract := some "0x5421Cf4288d8007D3c43AC4246eaFCe5b049e352"
        transactionValueHelper := none
        eid := 30109
        chainId := 137 }),
    ("berachain",
      { oftContract := some "0x779Ded0c9e1022225f8E0630b35a9b54bE713736"
        legacyMeshContract := none
        xautOftContract := none
        transactionValueHelper := none
        eid := 30362
        chainId := 80094 }),
    ("ink",
      { oftContract := some "0x0200C29006150606B650577BBE7B6248F58470c1"
        legacyMeshContract := none
        xautOftContract := none
        transactionValueHelper := none
        eid := 30339
        chainId := 57073 }),
    ("ton",
      { oftContract := none
        legacyMeshContract := none
        xautOftContract := none
        transactionValueHelper := none
        eid := 30343
        chainId := 30343 }),
    ("tron",
      { oftContract := none
        legacyMeshContract := none
        xautOftContract := none
        transactionValueHelper := none
        eid := 30420
        chainId := 728126428 }) ]

/-- Registry access by logical chain name: `BLOCKCHAINS[targetChain]`. -/
def lookupBlockchain (name : String) : Option ChainEntry :=
  (BLOCKCHAINS.find? (fun p => p.fst == name)).map Prod.snd

/-- `_getSourceChainConfiguration`: scan `Object.values(BLOCKCHAINS)` in
insertion order for the entry whose `chainId` matches the connected
network's chain id; `null` when none matches. -/
def getSourceChainConfiguration (chainId : Nat) : Option ChainEntry :=
  ((BLOCKCHAINS.map Prod.snd).find? (fun b => b.chainId == chainId))

/-- The three candidate contract kinds probed by the resolver, in the
source's literal order `['oftContract', 'legacyMeshContract',
'xautOftContract']`. -/
inductive ContractKind where
  | oft
  | legacyMesh
  | xautOft
deriving DecidableEq, Repr

/-- `configuration[key]` for the three candidate keys. -/
def ChainEntry.contractOf (cfg : ChainEntry) : ContractKind → Option String
  | ContractKind.oft => cfg.oftContract
  | ContractKind.legacyMesh => cfg.legacyMeshContract
  | ContractKind.xautOft => cfg.xautOftContract

/-- The loop order of variant A's `_getOftContract`. -/
def keyOrder : List ContractKind :=
  [ContractKind.oft, ContractKind.legacyMesh, ContractKind.xautOft]

/-- ASCII lower-casing of one character code, the effect of JavaScript's
`toLowerCase()` on the hexadececimal address strings compared here. -/
def lowerNat (n : Nat) : Nat :=
  if 65 ≤ n ∧ n ≤ 90 then n + 32 else n

/-- A string's lower-cased character codes. -/
def lowerStr (s : String) : List Nat :=
  s.data.map (fun c => lowerNat c.toNat)

/-- `a.toLowerCase() === b.toLowerCase()`: the case-insensitive token
comparison used by every resolver variant. -/
def lowerEq (a b : String) : Bool :=
  lowerStr a == lowerStr b

/-- The oracle environment standing for the external collaborators: the
connected account's address, the `token()` binding of each on-chain
contract, the per-chain-family recipient encoders (`none` models the
library throwing on a malformed recipient), the protocol fee quotes
returned by the OFT contract and the fee-conversion helper, and the wallet
layer's fee quotes and transaction hashes indexed by call order. -/
structure Env where
  address : String
  contractToken : String → String
  encodeRecipient : String → String → Option String
  oftNativeFee : Nat
  oftLzTokenFee : Nat
  helperTokenFee : Nat
  quoteFee : Nat → Nat
  sendHash : Nat → String

/-- The failure modes of the adapter.  `nullDereference` stands for the
JavaScript `TypeError` raised when a property of `null` is read while a
guard interpolates its error message.  `sourceChainNotSupported` is the
message variant A's source-chain guard was written to produce. -/
inductive BridgeError where
  | targetChainNotSupported (chain : String)
  | sourceChainNotSupported (chainId : Nat)
  | nullDereference
  | invalidTarget
  | tokenNotSupported (token : String)
  | erc4337NotSupported (chainId : Nat)
  | invalidRecipient
  | feeExceeded
  | readOnlyAccount
  | noProvider
deriving DecidableEq, Repr

/-- The read-only network calls the adapter performs before dispatching. -/
inductive NetEvent where
  | tokenRead (addr : String)
  | quoteSendOft
  | quoteSendHelper
deriving DecidableEq, Repr

/-- The probe loop shared by variant A's and variant C's `_getOftContract`:
iterate the candidate kinds in `keyOrder`, `continue` past the primary kind
when the target chain is `'ton'` or `'tron'`, read the bound token of each
present candidate (a network read, recorded in the trace) and return the
first case-insensitive match. -/
def probeLoop (cfg : ChainEntry) (targetChain token : String) (env : Env) :
    List ContractKind → Option String × List NetEvent
  | [] => (none, [])
  | k :: ks =>
    if k == ContractKind.oft && (targetChain == "ton" || targetChain == "tron") then
      probeLoop cfg targetChain token env ks
    else
      match cfg.contractOf k with
      | none => probeLoop cfg targetChain token env ks
      | some addr =>
        if lowerEq (env.contractToken addr) token then
          (some addr, [NetEvent.tokenRead addr])
        else
          ((probeLoop cfg targetChain token env ks).fst,
            NetEvent.tokenRead addr :: (probeLoop cfg targetChain token env ks).snd)

/-- Variant A's `_getOftContract (targetChain, token)`.  Unsupported target
chains fail by name.  When the source chain id is unregistered the guard
`throw new Error(\x60Source chain with id \x24\x7bconfiguration.chainId\x7d
not supported.\x60)` reads `configuration.chainId` with `configuration ===
null`, so the operation fails with a `TypeError` (modelled as
`nullDereference`) instead of the intended message.  Otherwise the probe
loop runs; `ok none` models the source returning `null`. -/
def getOftContractTr (chainId : Nat) (targetChain token : String) (env : Env) :
    Except BridgeError (Option String) × List NetEvent :=
  if (lookupBlockchain targetChain).isNone then
    (Except.error (BridgeError.targetChainNotSupported targetChain), [])
  else
    match getSourceChainConfiguration chainId with
    | none => (Except.error BridgeError.nullDereference, [])
    | some cfg =>
      match probeLoop cfg targetChain token env keyOrder with
      | (r, tr) => (Except.ok r, tr)

/-- Variant C's `_getOftContract`: identical to variant A's except that,
after resolving the source chain, it rejects a target chain whose chain id
equals the source chain id (`The target chain cannot be equal to the
source chain.`). -/
def getOftContractC (chainId : Nat) (targetChain token : String) (env : Env) :
    Except BridgeError (Option String) × List NetEvent :=
  if (lookupBlockchain targetChain).isNone then
    (Except.error (BridgeError.targetChainNotSupported targetChain), [])
  else
    match getSourceChainConfiguration chainId with
    | none => (Except.error BridgeError.nullDereference, [])
    | some cfg =>
      if ((lookupBlockchain targetChain).map ChainEntry.chainId) = some cfg.chainId then
        (Except.error BridgeError.invalidTarget, [])
      else
        match probeLoop cfg targetChain token env keyOrder with
        | (r, tr) => (Except.ok r, tr)

/-- Variant A's `_getTransactionValueHelperContract`.  The guard
`if (!configuration?.transactionValueHelper)` also fires when
`configuration` is `null`, and its message then reads
`configuration.chainId` of `null`: a `TypeError` again. -/
def getTransactionValueHelperContract (chainId : Nat) :
    Except BridgeError String :=
  match getSourceChainConfiguration chainId with
  | none => Except.error BridgeError.nullDereference
  | some cfg =>
    match cfg.transactionValueHelper with
    | none => Except.error (BridgeError.erc4337NotSupported cfg.chainId)
    | some addr => Except.ok addr

/-- Variant B's `_getOftContractAddress` probe (the straight-line version):
check the primary contract only when present and the target chain is not
`'ton'`/`'tron'`, then the legacy contract, then the secondary-asset
contract; first case-insensitive match wins. -/
def probeB (cfg : ChainEntry) (targetChain token : String) (env : Env) :
    Option String :=
  match
    (match cfg.oftContract with
     | some a =>
       if !(targetChain == "ton" || targetChain == "tron") then
         if lowerEq (env.contractToken a) token then some a else none
       else none
     | none => none) with
  | some a => some a
  | none =>
    match
      (match cfg.legacyMeshContract with
       | some a => if lowerEq (env.contractToken a) token then some a else none
       | none => none) with
    | some a => some a
    | none =>
      match cfg.xautOftContract with
      | some a => if lowerEq (env.contractToken a) token then some a else none
      | none => none

/-- Variant D's `_checkContractForToken`: `null` for an absent candidate,
otherwise the contract when its bound token matches case-insensitively. -/
def checkContractForToken (addrOpt : Option String) (token : String) (env : Env) :
    Option String :=
  match addrOpt with
  | none => none
  | some a => if lowerEq (env.contractToken a) token then some a else none

/-- Variant D's `contractTypes` table: each candidate kind with its guard
condition (the primary kind only for EVM-family targets). -/
def contractTypesD (targetChain : String) : List (ContractKind × Bool) :=
  [ (ContractKind.oft, !(targetChain == "ton" || targetChain == "tron")),
    (ContractKind.legacyMesh, true),
    (ContractKind.xautOft, true) ]

/-- The loop body of variant D's `_getOftContractAddress`. -/
def probeDLoop (cfg : ChainEntry) (token : String) (env : Env) :
    List (ContractKind × Bool) → Option String
  | [] => none
  | (k, cond) :: rest =>
    if cond then
      match checkContractForToken (cfg.contractOf k) token env with
      | some c => some c
      | none => probeDLoop cfg token env rest
    else
      probeDLoop cfg token env rest

/-- Variant D's `_getOftContractAddress` probe. -/
def probeD (cfg : ChainEntry) (targetChain token : String) (env : Env) :
    Option String :=
  probeDLoop cfg token env (contractTypesD targetChain)

/-- The candidate list described by the specification: primary first
(skipped entirely for the two non-EVM target families), then legacy, then
secondary-asset. -/
def specCandidates (cfg : ChainEntry) (targetChain : String) : List String :=
  (if targetChain == "ton" || targetChain == "tron" then []
   else cfg.oftContract.toList)
    ++ cfg.legacyMeshContract.toList ++ cfg.xautOftContract.toList

/-- Modelled from the spec: the resolver returns the first candidate, in
`specCandidates` order, whose bound token matches case-insensitively. -/
def specResolve (cfg : ChainEntry) (targetChain token : String) (env : Env) :
    Option String :=
  (specCandidates cfg targetChain).find?
    (fun a => lowerEq (env.contractToken a) token)

/-- Variant A's `FEE_TOLERANCE = 999n`. -/
def FEE_TOLERANCE : Nat := 999

/-- Variant A's `ERC_4337_FEE_BUFFER = 1_100n`. -/
def ERC_4337_FEE_BUFFER : Nat := 1100

/-- The protocol send-parameter structure built by `_buildOftSendParam`
(variant A, BigInt arithmetic).  `extraOptions` is the canonical empty
option set (`Options.newOptions().toBytes()`, the two bytes `0x0003`);
`composeMsg` and `oftCmd` are always the empty byte string. -/
structure SendParam where
  dstEid : Nat
  toAddr : String
  amountLD : Nat
  minAmountLD : Nat
  extraOptions : String
  composeMsg : String
  oftCmd : String
deriving DecidableEq, Repr

/-- Variant A's `_buildOftSendParam (targetChain, recipient, amount)`.
The per-family recipient encoding (TON friendly format, Tron base58check,
EVM hex address) is delegated to external libraries, modelled by
`env.encodeRecipient`; `none` stands for the library throwing on a
malformed recipient.  `minAmountLD = amount * FEE_TOLERANCE / 1_000n` in
BigInt arithmetic, which on non-negative amounts is floor division. -/
def buildOftSendParam (targetChain recipient : String) (amount : Nat) (env : Env) :
    Except BridgeError SendParam :=
  match env.encodeRecipient targetChain recipient with
  | none => Except.error BridgeError.invalidRecipient
  | some addr32 =>
    match lookupBlockchain targetChain with
    | none => Except.error BridgeError.nullDereference
    | some cfg =>
      Except.ok
        { dstEid := cfg.eid
          toAddr := addr32
          amountLD := amount
          minAmountLD := amount * FEE_TOLERANCE / 1000
          extraOptions := "0x0003"
          composeMsg := "0x"
          oftCmd := "0x" }

/-- Variant D's `FEE_TOLERANCE = 0.999`, as an exact rational.  The
JavaScript source stores this as a binary64 float; the nearest double to
`0.999` differs from it by less than `2 ^ (-53)`, which matters for none
of the statements below. -/
def FEE_TOLERANCE_D : ℚ := 999 / 1000

/-- The send-parameter structure of variant D, whose `minAmountLD` is a
JavaScript Number (`amount * FEE_TOLERANCE`), not an integer. -/
structure SendParamF where
  dstEid : Nat
  toAddr : String
  amountLD : ℚ
  minAmountLD : ℚ
deriving DecidableEq, Repr

/-- Variant D's `_buildOftSendParam`: `minAmountLD = amount *
FEE_TOLERANCE` computed in JavaScript Number (binary64) arithmetic.  We
model the arithmetic by exact rationals; for the inputs considered below
the float computation and its rational idealisation agree to within
`10 ^ (-9)`, far closer than their common distance to the integer the
specification demands. -/
def buildOftSendParamF (targetChain recipient : String) (amount : ℚ) (env : Env) :
    Except BridgeError SendParamF :=
  match env.encodeRecipient targetChain recipient with
  | none => Except.error BridgeError.invalidRecipient
  | some addr32 =>
    match lookupBlockchain targetChain with
    | none => Except.error BridgeError.nullDereference
    | some cfg =>
      Except.ok
        { dstEid := cfg.eid
          toAddr := addr32
          amountLD := amount
          minAmountLD := amount * FEE_TOLERANCE_D }

/-- The calls the adapter ABI-encodes, kept symbolic: the ERC-20
`approve(spender, amount)`, the OFT `send(sendParam, fee, refundAddress)`
and the helper `send(oft, sendParam, fee)`. -/
inductive CallData where
  | approve (spender : String) (amount : Nat)
  | oftSend (param : SendParam) (nativeFee : Nat) (refundAddress : String)
  | helperSend (oft : String) (param : SendParam) (nativeFee : Nat)
deriving DecidableEq, Repr

/-- A transaction handed to the wallet layer. -/
structure Tx where
  toAddr : String
  value : Nat
  data : CallData
deriving DecidableEq, Repr

/-- The pair of transactions (plus protocol fee) produced by variant A's
`_getBridgeTransactions`. -/
structure TxBundle where
  approveTx : Tx
  oftTx : Tx
  bridgeFee : Nat
deriving DecidableEq, Repr

/-- The three account shapes the orchestrator distinguishes by
`instanceof` checks. -/
inductive AccountKind where
  | standard
  | erc4337
  | readOnly
deriving DecidableEq, Repr

/-- The caller input of `bridge` / `quoteBridge`. -/
structure BridgeOptions where
  targetChain : String
  recipient : String
  token : String
  amount : Nat
deriving DecidableEq, Repr

/-- Variant A's `_getBridgeTransactions({ targetChain, recipient, token,
amount })`.  Order of effects, as in the source: resolve the OFT contract
(token-binding network reads), fail `UnsupportedToken` when it is `null`,
build the send parameters (where a malformed recipient fails), then for an
ERC-4337 account resolve the helper contract, quote the OFT fee and the
helper's token-denominated fee, and approve the helper for
`amount + (bridgeFee * ERC_4337_FEE_BUFFER / 1_000n)`; for a standard
account quote the OFT fee and approve the OFT contract for exactly
`amount`.  The returned trace lists the read-only network calls made. -/
def getBridgeTransactions (kind : AccountKind) (chainId : Nat)
    (opts : BridgeOptions) (env : Env) :
    Except BridgeError TxBundle × List NetEvent :=
  match getOftContractTr chainId opts.targetChain opts.token env with
  | (Except.error e, tr) => (Except.error e, tr)
  | (Except.ok none, tr) =>
    (Except.error (BridgeError.tokenNotSupported opts.token), tr)
  | (Except.ok (some oftAddr), tr) =>
    match buildOftSendParam opts.targetChain opts.recipient opts.amount env with
    | Except.error e => (Except.error e, tr)
    | Except.ok sendParam =>
      match kind with
      | AccountKind.erc4337 =>
        match getTransactionValueHelperContract chainId with
        | Except.error e => (Except.error e, tr)
        | Except.ok helperAddr =>
          let nativeFee := env.oftNativeFee
          let bridgeFee := env.helperTokenFee
          let approveAmount := opts.amount + bridgeFee * ERC_4337_FEE_BUFFER / 1000
          (Except.ok
            { approveTx :=
                { toAddr := opts.token
                  value := 0
                  data := CallData.approve helperAddr approveAmount }
              oftTx :=
                { toAddr := helperAddr
                  value := 0
                  data := CallData.helperSend oftAddr sendParam nativeFee }
              bridgeFee := bridgeFee },
            tr ++ [NetEvent.quoteSendOft, NetEvent.quoteSendHelper])
      | _ =>
        let bridgeFee := env.oftNativeFee
        (Except.ok
          { approveTx :=
              { toAddr := opts.token
                value := 0
                data := CallData.approve oftAddr opts.amount }
            oftTx :=
              { toAddr := oftAddr
                value := bridgeFee
                data := CallData.oftSend sendParam bridgeFee env.address }
            bridgeFee := bridgeFee },
          tr ++ [NetEvent.quoteSendOft])

/-- The protocol configuration (constructor `config`) and the per-call
`config` argument of variant A's `bridge`: only `bridgeMaxFee` matters for
the claims (`paymasterToken` is passed through verbatim). -/
structure ProtocolConfig where
  bridgeMaxFee : Option Nat
deriving DecidableEq, Repr

/-- What variant A's `bridge` returns: for a standard account
`{ approveHash, hash, fee, bridgeFee }`, for an ERC-4337 account
`{ hash, fee, bridgeFee }` (so `approveHash` is absent, modelled by
`none`). -/
structure BridgeResultA where
  hash : String
  fee : Nat
  bridgeFee : Nat
  approveHash : Option String
deriving DecidableEq, Repr

/-- A submission through the wallet layer: one transaction for a standard
account, a bundled list for an ERC-4337 user operation. -/
inductive Submission where
  | single (tx : Tx)
  | bundle (txs : List Tx)
deriving DecidableEq, Repr

/-- Variant A's max-fee guard condition:
`bridgeMaxFee !== undefined && fee + bridgeFee >= bridgeMaxFee`. -/
def maxFeeGuardA (bridgeMaxFee : Option Nat) (fee bridgeFee : Nat) : Bool :=
  match bridgeMaxFee with
  | some m => decide (fee + bridgeFee ≥ m)
  | none => false

/-- Variant D's max-fee guard condition:
`bridgeMaxFee && fee + bridgeFee > bridgeMaxFee` — JavaScript truthiness,
so an absent ceiling and a ceiling of `0` both disable the guard, and the
comparison is strict. -/
def maxFeeGuardD (bridgeMaxFee : Option Nat) (fee bridgeFee : Nat) : Bool :=
  match bridgeMaxFee with
  | some m => decide (m ≠ 0) && decide (fee + bridgeFee > m)
  | none => false

/-- Variant A's `bridge (options, config)`.  A read-only account and a
missing provider fail up front.  For an ERC-4337 account the effective
ceiling is `config ?? this._config` destructured to `bridgeMaxFee`; the
guard is `bridgeMaxFee !== undefined && fee + bridgeFee >= bridgeMaxFee`
and the bundle `[approveTx, oftTx]` is submitted once.  For a standard
account the two legs are quoted separately, the guard reads
`this._config.bridgeMaxFee` (the per-call `config` is not consulted), and
the approval is submitted, awaited, then the OFT send is submitted.  The
returned list records the submissions in order. -/
def bridgeA (kind : AccountKind) (opts : BridgeOptions)
    (pcfg : ProtocolConfig) (config : Option ProtocolConfig)
    (chainId : Nat) (env : Env) (hasProvider : Bool) :
    Except BridgeError BridgeResultA × List Submission × List NetEvent :=
  if kind == AccountKind.readOnly then
    (Except.error BridgeError.readOnlyAccount, [], [])
  else if !hasProvider then
    (Except.error BridgeError.noProvider, [], [])
  else
    match getBridgeTransactions kind chainId opts env with
    | (Except.error e, tr) => (Except.error e, [], tr)
    | (Except.ok b, tr) =>
      match kind with
      | AccountKind.erc4337 =>
        let bridgeMaxFee :=
          (match config with
           | some c => c.bridgeMaxFee
           | none => pcfg.bridgeMaxFee)
        let fee := env.quoteFee 0
        if maxFeeGuardA bridgeMaxFee fee b.bridgeFee then
          (Except.error BridgeError.feeExceeded, [], tr)
        else
          (Except.ok
            { hash := env.sendHash 0
              fee := fee
              bridgeFee := b.bridgeFee
              approveHash := none },
            [Submission.bundle [b.approveTx, b.oftTx]], tr)
      | _ =>
        let approveFee := env.quoteFee 0
        let oftFee := env.quoteFee 1
        let fee := approveFee + oftFee
        if maxFeeGuardA pcfg.bridgeMaxFee fee b.bridgeFee then
          (Except.error BridgeError.feeExceeded, [], tr)
        else
          (Except.ok
            { hash := env.sendHash 1
              fee := fee
              bridgeFee := b.bridgeFee
              approveHash := some (env.sendHash 0) },
            [Submission.single b.approveTx, Submission.single b.oftTx], tr)

/-- The constructor / per-call configuration of variant D's `bridge`:
`const { bridgeMaxFee, paymasterToken } = config ?? this._config`. -/
structure ConfigD where
  bridgeMaxFee : Option Nat
  paymasterToken : Option String
deriving DecidableEq, Repr

/-- What variant D's `bridge` returns: note the approval hash travels
under the key `approvalHash` (there is no `approveHash` field). -/
structure BridgeResultD where
  hash : String
  fee : Nat
  bridgeFee : Nat
  approvalHash : Option String
deriving DecidableEq, Repr

/-- Variant D's `bridge (options, config)` from the quote onward, taking
the transactions and token fee produced by its `_quoteBridgeInternal` /
`_getBridgeTransactions` as inputs.  The fee is the sum of the two wallet
quotes for a standard account and a single bundled quote for an ERC-4337
account.  The guard is `if (bridgeMaxFee && fee + bridgeFee >
bridgeMaxFee)`: JavaScript truthiness, so a ceiling of `0` (and an absent
ceiling) disables the check, and the comparison is strict.  A standard
account then submits both transactions through `Promise.all` — the
submissions are initiated in array order but neither completion is awaited
before the other starts — and the result carries the approval hash as
`approvalHash`. -/
def bridgeD (kind : AccountKind) (approvalTx oftSendTx : Tx) (bridgeFee : Nat)
    (pcfg : ConfigD) (config : Option ConfigD) (env : Env) :
    Except BridgeError BridgeResultD × List Submission :=
  if kind == AccountKind.readOnly then
    (Except.error BridgeError.readOnlyAccount, [])
  else
    let fee :=
      (match kind with
       | AccountKind.erc4337 => env.quoteFee 0
       | _ => env.quoteFee 0 + env.quoteFee 1)
    let eff := config.getD pcfg
    if maxFeeGuardD eff.bridgeMaxFee fee bridgeFee then
      (Except.error BridgeError.feeExceeded, [])
    else
      match kind with
      | AccountKind.erc4337 =>
        (Except.ok
          { hash := env.sendHash 0
            fee := fee
            bridgeFee := bridgeFee
            approvalHash := none },
          [Submission.bundle [approvalTx, oftSendTx]])
      | _ =>
        (Except.ok
          { hash := env.sendHash 1
            fee := fee
            bridgeFee := bridgeFee
            approvalHash := some (env.sendHash 0) },
          [Submission.single approvalTx, Submission.single oftSendTx])

/-- Modelled from the spec: the approval amount the claim asserts for the
account-abstraction path, `ceil(amount + bridgeFee * 1.10)` with the exact
value of `1.10`. -/
def specApprovalAmountCeil (amount bridgeFee : Nat) : ℤ :=
  ⌈(amount : ℚ) + (bridgeFee : ℚ) * (11 / 10)⌉

/-! ### Concrete fixtures

Named constants for the concrete evaluations below: the token and user of
the repository's own test fixtures, the registry addresses, and a fully
concrete oracle environment in which every candidate contract is bound to
`TOKEN`. -/

def TOKEN : String := "0xFd086bC7CD5C481DCC9C85ebE478A1C0b69FCbb9"

def USER : String := "0xa460AEbce0d3A4BecAd8ccf9D6D4861296c503Bd"

def USER32 : String :=
  "0x000000000000000000000000a460aebce0d3a4becad8ccf9d6d4861296c503bd"

def oftEthAddr : String := "0x6C96dE32CEa08842dcc4058c14d3aaAD7Fa41dee"

def oftArbAddr : String := "0x14E4A1B13bf7F943c8ff7C51fb60FA964A298D92"

def helperArbAddr : String := "0xa90f03c856D01F698E7071B393387cd75a8a319A"

/-- A concrete environment: every contract reports `TOKEN` as its bound
token, recipients encode to `USER32`, the OFT native fee quote is 10000,
the helper's token-denominated quote is 1, each wallet fee quote is 500,
and the wallet returns distinct hashes for the first two submissions. -/
def envFix : Env :=
  { address := USER
    contractToken := fun _ => TOKEN
    encodeRecipient := fun _ _ => some USER32
    oftNativeFee := 10000
    oftLzTokenFee := 0
    helperTokenFee := 1
    quoteFee := fun _ => 500
    sendHash := fun i => if i == 0 then "hashA" else "hashB" }

/-- `envFix` with a recipient encoder that always fails, modelling a
recipient string malformed for every chain family. -/
def envBadRecipient : Env :=
  { envFix with encodeRecipient := fun _ _ => none }

def optsEth : BridgeOptions :=
  { targetChain := "ethereum", recipient := USER, token := TOKEN, amount := 100 }

def optsArb : BridgeOptions :=
  { targetChain := "arbitrum", recipient := USER, token := TOKEN, amount := 100 }

def optsEthBadRecipient : BridgeOptions :=
  { optsEth with recipient := "not-an-address" }

/-- The send parameters produced for target `ethereum` and amount 100. -/
def spEthFix : SendParam :=
  { dstEid := 30101
    toAddr := USER32
    amountLD := 100
    minAmountLD := 99
    extraOptions := "0x0003"
    composeMsg := "0x"
    oftCmd := "0x" }

/-- The send parameters produced for target `arbitrum` and amount 100. -/
def spArbFix : SendParam :=
  { dstEid := 30110
    toAddr := USER32
    amountLD := 100
    minAmountLD := 99
    extraOptions := "0x0003"
    composeMsg := "0x"
    oftCmd := "0x" }

/-- The standard-account transaction bundle built from source chain id 1
(ethereum) towards `arbitrum` in `envFix`. -/
def bundleStdFix : TxBundle :=
  { approveTx :=
      { toAddr := TOKEN, value := 0, data := CallData.approve oftEthAddr 100 }
    oftTx :=
      { toAddr := oftEthAddr
        value := 10000
        data := CallData.oftSend spArbFix 10000 USER }
    bridgeFee := 10000 }

/-- The network-read trace of that standard-account construction. -/
def trStdFix : List NetEvent :=
  [NetEvent.tokenRead oftEthAddr, NetEvent.quoteSendOft]

/-- The registry entry for `ethereum`. -/
def ethEntryFix : ChainEntry :=
  { oftContract := some "0x6C96dE32CEa08842dcc4058c14d3aaAD7Fa41dee"
    legacyMeshContract := some "0x811ed79dB9D34E83BDB73DF6c3e07961Cfb0D5c0"
    xautOftContract := some "0xb9c2321BB7D0Db468f570D10A424d1Cc8EFd696C"
    transactionValueHelper := none
    eid := 30101
    chainId := 1 }

/-- The registry entry for `ton`: no bridge contracts at all. -/
def tonEntryFix : ChainEntry :=
  { oftContract := none
    legacyMeshContract := none
    xautOftContract := none
    transactionValueHelper := none
    eid := 30343
    chainId := 30343 }

/-- The registry entry for `tron`: no bridge contracts at all. -/
def tronEntryFix : ChainEntry :=
  { oftContract := none
    legacyMeshContract := none
    xautOftContract := none
    transactionValueHelper := none
    eid := 30420
    chainId := 728126428 }

/-- The ERC-4337 transaction bundle built from source chain id 42161
(arbitrum) towards `ethereum` in `envFix`: the approval approves the
helper for `100 + 1 * 1100 / 1000 = 101`. -/
def bundle4337Fix : TxBundle :=
  { approveTx :=
      { toAddr := TOKEN, value := 0, data := CallData.approve helperArbAddr 101 }
    oftTx :=
      { toAddr := helperArbAddr
        value := 0
        data := CallData.helperSend oftArbAddr spEthFix 10000 }
    bridgeFee := 1 }

/-- The network-read trace of that ERC-4337 construction. -/
def tr4337Fix : List NetEvent :=
  [NetEvent.tokenRead oftArbAddr, NetEvent.quoteSendOft,
   NetEvent.quoteSendHelper]

/-- Stub transactions standing for the output of variant D's
`_getBridgeTransactions`, used to evaluate variant D's `bridge` guard. -/
def txApproveFix : Tx :=
  { toAddr := TOKEN, value := 0, data := CallData.approve oftArbAddr 1000000 }

def txSendFix : Tx :=
  { toAddr := oftArbAddr
    value := 1100
    data := CallData.oftSend spEthFix 1100 USER }

/-! ### Helper lemmas -/

/-- Every event the probe loop records is a token-binding read. -/
theorem probeLoop_trace_tokenReads (cfg : ChainEntry) (tc token : String)
    (env : Env) :
    ∀ ks : List ContractKind, ∀ e ∈ (probeLoop cfg tc token env ks).snd,
      ∃ a, e = NetEvent.tokenRead a := by
  intro ks
  induction ks with
  | nil => intro e he; simp [probeLoop] at he
  | cons k ks ih =>
    intro e he
    simp only [probeLoop] at he
    split at he
    · exact ih e he
    · split at he
      · exact ih e he
      · rename_i addr _
        split at he
        · simp at he
          exact ⟨addr, he⟩
        · simp at he
          rcases he with h | h
          · exact ⟨addr, h⟩
          · exact ih e h

/-- When the resolver succeeds, its trace consists of token reads only. -/
theorem getOftContractTr_trace_tokenReads (chainId : Nat)
    (targetChain token : String) (env : Env) (r : Option String)
    (tr : List NetEvent)
    (h : getOftContractTr chainId targetChain token env = (Except.ok r, tr)) :
    ∀ e ∈ tr, ∃ a, e = NetEvent.tokenRead a := by
  unfold getOftContractTr at h
  split at h
  · simp at h
  · cases hs : getSourceChainConfiguration chainId with
    | none => rw [hs] at h; simp at h
    | some cfg =>
      rw [hs] at h
      have h2 : (probeLoop cfg targetChain token env keyOrder).snd = tr :=
        congrArg Prod.snd h
      rw [← h2]
      exact probeLoop_trace_tokenReads cfg targetChain token env keyOrder

/-- A registry entry without any candidate contract makes the probe loop
return `null` with no network reads. -/
theorem probeLoop_all_absent (cfg : ChainEntry) (tc token : String) (env : Env)
    (h1 : cfg.oftContract = none) (h2 : cfg.legacyMeshContract = none)
    (h3 : cfg.xautOftContract = none) :
    probeLoop cfg tc token env keyOrder = (none, []) := by
  simp only [keyOrder, probeLoop, ChainEntry.contractOf, h1, h2, h3]
  split <;> simp [probeLoop, ChainEntry.contractOf, h2, h3]

/-- Unfolding lemma: a standard-account `bridge` call in variant A, once
the transactions are built, is the max-fee guard followed by the two
sequential submissions. -/
theorem bridgeA_standard_eq (opts : BridgeOptions) (pcfg : ProtocolConfig)
    (config : Option ProtocolConfig) (chainId : Nat) (env : Env)
    (b : TxBundle) (tr : List NetEvent)
    (hgb : getBridgeTransactions AccountKind.standard chainId opts env
      = (Except.ok b, tr)) :
    bridgeA AccountKind.standard opts pcfg config chainId env true =
      if maxFeeGuardA pcfg.bridgeMaxFee (env.quoteFee 0 + env.quoteFee 1)
          b.bridgeFee then
        (Except.error BridgeError.feeExceeded, [], tr)
      else
        (Except.ok
          { hash := env.sendHash 1
            fee := env.quoteFee 0 + env.quoteFee 1
            bridgeFee := b.bridgeFee
            approveHash := some (env.sendHash 0) },
          [Submission.single b.approveTx, Submission.single b.oftTx], tr) := by
  unfold bridgeA
  rw [hgb]
  rfl

/-- Unfolding lemma: an ERC-4337 `bridge` call in variant A, once the
transactions are built, is the max-fee guard (over `config ??
this._config`) followed by one bundled submission. -/
theorem bridgeA_erc4337_eq (opts : BridgeOptions) (pcfg : ProtocolConfig)
    (config : Option ProtocolConfig) (chainId : Nat) (env : Env)
    (b : TxBundle) (tr : List NetEvent)
    (hgb : getBridgeTransactions AccountKind.erc4337 chainId opts env
      = (Except.ok b, tr)) :
    bridgeA AccountKind.erc4337 opts pcfg config chainId env true =
      if maxFeeGuardA
          (match config with
           | some c => c.bridgeMaxFee
           | none => pcfg.bridgeMaxFee)
          (env.quoteFee 0) b.bridgeFee then
        (Except.error BridgeError.feeExceeded, [], tr)
      else
        (Except.ok
          { hash := env.sendHash 0
            fee := env.quoteFee 0
            bridgeFee := b.bridgeFee
            approveHash := none },
          [Submission.bundle [b.approveTx, b.oftTx]], tr) := by
  unfold bridgeA
  rw [hgb]
  rfl

/-- Unfolding lemma: when the transaction construction fails, variant A's
`bridge` propagates the error and submits nothing. -/
theorem bridgeA_error_eq (kind : AccountKind) (opts : BridgeOptions)
    (pcfg : ProtocolConfig) (config : Option ProtocolConfig) (chainId : Nat)
    (env : Env) (e : BridgeError) (tr : List NetEvent)
    (hk : kind ≠ AccountKind.readOnly)
    (hgb : getBridgeTransactions kind chainId opts env = (Except.error e, tr)) :
    bridgeA kind opts pcfg config chainId env true
      = (Except.error e, [], tr) := by
  cases kind with
  | readOnly => exact absurd rfl hk
  | standard => unfold bridgeA; rw [hgb]; rfl
  | erc4337 => unfold bridgeA; rw [hgb]; rfl

/-- Shape of the transactions variant A's `_getBridgeTransactions` builds:
for an ERC-4337 account the approval approves the helper contract for
`amount + bridgeFee * 1100 / 1000` and the send call goes through the
helper with value 0; for a standard account the approval approves the OFT
contract for exactly `amount` and the send call carries the native fee as
its value. -/
theorem getBridgeTransactions_shape (kind : AccountKind) (chainId : Nat)
    (opts : BridgeOptions) (env : Env) (b : TxBundle) (tr : List NetEvent)
    (h : getBridgeTransactions kind chainId opts env = (Except.ok b, tr)) :
    (kind = AccountKind.erc4337 →
      ∃ helperAddr oftAddr sp,
        getTransactionValueHelperContract chainId = Except.ok helperAddr ∧
        b.approveTx =
          { toAddr := opts.token
            value := 0
            data := CallData.approve helperAddr
              (opts.amount + env.helperTokenFee * ERC_4337_FEE_BUFFER / 1000) } ∧
        b.oftTx =
          { toAddr := helperAddr
            value := 0
            data := CallData.helperSend oftAddr sp env.oftNativeFee } ∧
        b.bridgeFee = env.helperTokenFee) ∧
    (kind = AccountKind.standard →
      ∃ oftAddr sp,
        b.approveTx =
          { toAddr := opts.token
            value := 0
            data := CallData.approve oftAddr opts.amount } ∧
        b.oftTx =
          { toAddr := oftAddr
            value := env.oftNativeFee
            data := CallData.oftSend sp env.oftNativeFee env.address } ∧
        b.bridgeFee = env.oftNativeFee) := by
  unfold getBridgeTransactions at h
  split at h
  · simp at h
  · simp at h
  · rename_i oftAddr tr0 heq
    split at h
    · simp at h
    · rename_i sp hsp
      cases kind with
      | erc4337 =>
        constructor
        · intro hk
          cases hh : getTransactionValueHelperContract chainId with
          | error e => rw [hh] at h; simp at h
          | ok helperAddr =>
            rw [hh] at h
            rw [Prod.mk.injEq, Except.ok.injEq] at h
            obtain ⟨hb, -⟩ := h
            subst hb
            refine ⟨helperAddr, oftAddr, sp, rfl, ?_, ?_, ?_⟩ <;> rfl
        · intro hk
          cases hk
      | standard =>
        constructor
        · intro hk
          cases hk
        · intro hk
          rw [Prod.mk.injEq, Except.ok.injEq] at h
          obtain ⟨hb, -⟩ := h
          subst hb
          refine ⟨oftAddr, sp, ?_, ?_, ?_⟩ <;> rfl
      | readOnly =>
        constructor
        · intro hk
          cases hk
        · intro hk
          cases hk

/-- The probe loop's result is the first candidate accepted by the
case-insensitive comparison, where the candidate list drops the primary
kind for `'ton'`/`'tron'` targets and absent addresses. -/
theorem probeLoop_fst_find (cfg : ChainEntry) (tc token : String) (env : Env) :
    ∀ ks : List ContractKind,
      (probeLoop cfg tc token env ks).fst
        = (ks.filterMap (fun k =>
            if k == ContractKind.oft && (tc == "ton" || tc == "tron") then none
            else cfg.contractOf k)).find?
            (fun a => lowerEq (env.contractToken a) token) := by
  intro ks
  induction ks with
  | nil => rfl
  | cons k ks ih =>
    rw [List.filterMap_cons]
    by_cases hskip : (k == ContractKind.oft && (tc == "ton" || tc == "tron")) = true
    · rw [if_pos hskip]
      simp only [probeLoop, if_pos hskip]
      exact ih
    · rw [if_neg hskip]
      simp only [probeLoop, if_neg hskip]
      cases hc : cfg.contractOf k with
      | none => exact ih
      | some addr =>
        by_cases hp : lowerEq (env.contractToken addr) token = true <;>
          simp [List.find?_cons, hp, ih]

/-- The spec's candidate list coincides with the loop's filtered list. -/
theorem specCandidates_eq_filterMap (cfg : ChainEntry) (tc : String) :
    specCandidates cfg tc
      = keyOrder.filterMap (fun k =>
          if k == ContractKind.oft && (tc == "ton" || tc == "tron") then none
          else cfg.contractOf k) := by
  obtain ⟨o, l, x, tvh, eid, cid⟩ := cfg
  by_cases hton : (tc == "ton" || tc == "tron") = true <;>
    cases o <;> cases l <;> cases x <;>
      simp [specCandidates, keyOrder, ChainEntry.contractOf, hton,
        List.filterMap_cons]

/-- Lower-case-equal tokens are interchangeable for the probe loop. -/
theorem probeLoop_lowerStr_invariant (cfg : ChainEntry) (tc : String)
    (env : Env) (t t' : String) (h : lowerStr t' = lowerStr t) :
    ∀ ks : List ContractKind,
      probeLoop cfg tc t' env ks = probeLoop cfg tc t env ks := by
  intro ks
  induction ks with
  | nil => rfl
  | cons k ks ih => simp only [probeLoop, lowerEq, h, ih]

/-! ### Claim theorems -/

/-- C1: in the BigInt implementation of `_buildOftSendParam` (variant A)
every successfully built `SendParam` has `minAmountLD` exactly
`floor(amount * 999 / 1000)` in integer arithmetic — never exceeding the
amount, and `amount = 100` gives 99.  The Number implementation
(variant D) instead computes `amount * 0.999` in floating point: at
`amount = 100` the result is `99.9`, not the integer `99` the claim
asserts, so the claim fails on that variant. -/
theorem minAmountLD_floor_vs_float :
    (∀ (tc r : String) (amount : Nat) (env : Env) (p : SendParam),
        buildOftSendParam tc r amount env = Except.ok p →
          p.minAmountLD = amount * 999 / 1000 ∧ p.minAmountLD ≤ amount) ∧
    (100 : Nat) * 999 / 1000 = 99 ∧
    (buildOftSendParamF "ethereum" USER 100 envFix).map SendParamF.minAmountLD
      = Except.ok ((999 : ℚ) / 10) ∧
    ((999 : ℚ) / 10) ≠ 99 := by
  refine ⟨?_, by norm_num, ?_, by norm_num⟩
  · intro tc r amount env p h
    unfold buildOftSendParam at h
    cases he : env.encodeRecipient tc r with
    | none => rw [he] at h; cases h
    | some a32 =>
      rw [he] at h
      cases hl : lookupBlockchain tc with
      | none => rw [hl] at h; cases h
      | some cfg =>
        rw [hl] at h
        cases h
        refine ⟨rfl, ?_⟩
        show amount * FEE_TOLERANCE / 1000 ≤ amount
        unfold FEE_TOLERANCE
        omega
  · have hv : buildOftSendParamF "ethereum" USER 100 envFix
        = Except.ok
            { dstEid := 30101
              toAddr := USER32
              amountLD := 100
              minAmountLD := 100 * FEE_TOLERANCE_D } := by rfl
    rw [hv]
    show Except.ok ((100 : ℚ) * FEE_TOLERANCE_D) = Except.ok ((999 : ℚ) / 10)
    norm_num [FEE_TOLERANCE_D]

/-- Witness for C1: target `ethereum`, recipient `USER`, amount 100 in a
concrete environment. -/
theorem minAmountLD_floor_vs_float_witness :
    buildOftSendParam "ethereum" USER 100 envFix = Except.ok spEthFix ∧
    (spEthFix.minAmountLD = 100 * 999 / 1000 ∧ spEthFix.minAmountLD ≤ 100) :=
  ⟨by decide,
    minAmountLD_floor_vs_float.1 "ethereum" USER 100 envFix spEthFix (by decide)⟩

/-- C2: in variant A's `bridge`, whenever the effective max-fee ceiling is
configured (any value, 0 included) and `fee + bridgeFee >= bridgeMaxFee`,
the call fails with the fee-exceeded error and no submission is made —
for the standard path the ceiling read is the constructor configuration,
for the ERC-4337 path it is `config ?? this._config`.  Variant D's guard
(`bridgeMaxFee && fee + bridgeFee > bridgeMaxFee`) violates the claim: a
configured ceiling of 0 is falsy, so that call proceeds and submits. -/
theorem feeCeiling_blocks_submissions :
    (∀ (opts : BridgeOptions) (pcfg : ProtocolConfig)
        (config : Option ProtocolConfig) (chainId : Nat) (env : Env)
        (b : TxBundle) (tr : List NetEvent) (m : Nat),
        getBridgeTransactions AccountKind.standard chainId opts env
          = (Except.ok b, tr) →
        pcfg.bridgeMaxFee = some m →
        env.quoteFee 0 + env.quoteFee 1 + b.bridgeFee ≥ m →
        bridgeA AccountKind.standard opts pcfg config chainId env true
          = (Except.error BridgeError.feeExceeded, [], tr)) ∧
    (∀ (opts : BridgeOptions) (pcfg : ProtocolConfig)
        (config : Option ProtocolConfig) (chainId : Nat) (env : Env)
        (b : TxBundle) (tr : List NetEvent) (m : Nat),
        getBridgeTransactions AccountKind.erc4337 chainId opts env
          = (Except.ok b, tr) →
        (match config with
         | some c => c.bridgeMaxFee
         | none => pcfg.bridgeMaxFee) = some m →
        env.quoteFee 0 + b.bridgeFee ≥ m →
        bridgeA AccountKind.erc4337 opts pcfg config chainId env true
          = (Except.error BridgeError.feeExceeded, [], tr)) ∧
    ((bridgeD AccountKind.standard txApproveFix txSendFix 1100
        ⟨some 0, none⟩ none envFix).fst ≠ Except.error BridgeError.feeExceeded ∧
      (bridgeD AccountKind.standard txApproveFix txSendFix 1100
        ⟨some 0, none⟩ none envFix).snd
        = [Submission.single txApproveFix, Submission.single txSendFix]) := by
  refine ⟨?_, ?_, by decide, by decide⟩
  · intro opts pcfg config chainId env b tr m hgb hm hge
    rw [bridgeA_standard_eq opts pcfg config chainId env b tr hgb]
    rw [if_pos (by rw [hm]; exact decide_eq_true hge)]
  · intro opts pcfg config chainId env b tr m hgb hm hge
    rw [bridgeA_erc4337_eq opts pcfg config chainId env b tr hgb]
    rw [if_pos (by rw [hm]; exact decide_eq_true hge)]

/-- Witness for C2: standard account, constructor ceiling 0, concrete
environment — the call fails with the fee-exceeded error and submits
nothing. -/
theorem feeCeiling_blocks_submissions_witness :
    getBridgeTransactions AccountKind.standard 1 optsArb envFix
      = (Except.ok bundleStdFix, trStdFix) ∧
    envFix.quoteFee 0 + envFix.quoteFee 1 + bundleStdFix.bridgeFee ≥ 0 ∧
    bridgeA AccountKind.standard optsArb ⟨some 0⟩ none 1 envFix true
      = (Except.error BridgeError.feeExceeded, [], trStdFix) :=
  ⟨by decide, Nat.zero_le _,
    feeCeiling_blocks_submissions.1 optsArb ⟨some 0⟩ none 1 envFix bundleStdFix
      trStdFix 0 (by decide) rfl (Nat.zero_le _)⟩

/-- C3: in variant A, a successful `bridge` on a standard account makes
exactly two submissions — the approval transaction first, then the OFT
send transaction — and returns an `approveHash` that differs from `hash`
whenever the wallet returns distinct hashes for the two submissions; a
successful `bridge` on an ERC-4337 account makes exactly one bundled
submission and its result has no `approveHash`. -/
theorem bridge_submission_shape :
    (∀ (opts : BridgeOptions) (pcfg : ProtocolConfig)
        (config : Option ProtocolConfig) (chainId : Nat) (env : Env)
        (res : BridgeResultA) (subs : List Submission) (tr : List NetEvent),
        bridgeA AccountKind.standard opts pcfg config chainId env true
          = (Except.ok res, subs, tr) →
        (∃ b oftAddr sp,
          (getBridgeTransactions AccountKind.standard chainId opts env).fst
            = Except.ok b ∧
          subs = [Submission.single b.approveTx, Submission.single b.oftTx] ∧
          b.approveTx.data = CallData.approve oftAddr opts.amount ∧
          b.oftTx.data = CallData.oftSend sp env.oftNativeFee env.address) ∧
        res.approveHash = some (env.sendHash 0) ∧
        res.hash = env.sendHash 1 ∧
        (env.sendHash 0 ≠ env.sendHash 1 → res.approveHash ≠ some res.hash)) ∧
    (∀ (opts : BridgeOptions) (pcfg : ProtocolConfig)
        (config : Option ProtocolConfig) (chainId : Nat) (env : Env)
        (res : BridgeResultA) (subs : List Submission) (tr : List NetEvent),
        bridgeA AccountKind.erc4337 opts pcfg config chainId env true
          = (Except.ok res, subs, tr) →
        (∃ b, (getBridgeTransactions AccountKind.erc4337 chainId opts env).fst
            = Except.ok b ∧
          subs = [Submission.bundle [b.approveTx, b.oftTx]]) ∧
        res.approveHash = none) := by
  constructor
  · intro opts pcfg config chainId env res subs tr h
    rcases hgb : getBridgeTransactions AccountKind.standard chainId opts env
      with ⟨er, tr0⟩
    cases er with
    | error e =>
      rw [bridgeA_error_eq AccountKind.standard opts pcfg config chainId env
        e tr0 (by decide) hgb] at h
      simp at h
    | ok b =>
      rw [bridgeA_standard_eq opts pcfg config chainId env b tr0 hgb] at h
      by_cases hg : maxFeeGuardA pcfg.bridgeMaxFee
          (env.quoteFee 0 + env.quoteFee 1) b.bridgeFee = true
      · rw [if_pos hg] at h; simp at h
      · rw [if_neg hg] at h
        rw [Prod.mk.injEq, Prod.mk.injEq, Except.ok.injEq] at h
        obtain ⟨hres, hsubs, -⟩ := h
        subst hres
        obtain ⟨-, hsh⟩ :=
          getBridgeTransactions_shape AccountKind.standard chainId opts env
            b tr0 hgb
        obtain ⟨oftAddr, sp, hap, hot, -⟩ := hsh rfl
        refine ⟨⟨b, oftAddr, sp, rfl, hsubs.symm, by rw [hap],
          by rw [hot]⟩, rfl, rfl, fun hne => ?_⟩
        simpa using hne
  · intro opts pcfg config chainId env res subs tr h
    rcases hgb : getBridgeTransactions AccountKind.erc4337 chainId opts env
      with ⟨er, tr0⟩
    cases er with
    | error e =>
      rw [bridgeA_error_eq AccountKind.erc4337 opts pcfg config chainId env
        e tr0 (by decide) hgb] at h
      simp at h
    | ok b =>
      rw [bridgeA_erc4337_eq opts pcfg config chainId env b tr0 hgb] at h
      cases config with
      | none =>
        by_cases hg : maxFeeGuardA pcfg.bridgeMaxFee (env.quoteFee 0)
            b.bridgeFee = true
        · rw [if_pos hg] at h; simp at h
        · rw [if_neg hg] at h
          rw [Prod.mk.injEq, Prod.mk.injEq, Except.ok.injEq] at h
          obtain ⟨hres, hsubs, -⟩ := h
          subst hres
          exact ⟨⟨b, rfl, hsubs.symm⟩, rfl⟩
      | some c =>
        by_cases hg : maxFeeGuardA c.bridgeMaxFee (env.quoteFee 0)
            b.bridgeFee = true
        · rw [if_pos hg] at h; simp at h
        · rw [if_neg hg] at h
          rw [Prod.mk.injEq, Prod.mk.injEq, Except.ok.injEq] at h
          obtain ⟨hres, hsubs, -⟩ := h
          subst hres
          exact ⟨⟨b, rfl, hsubs.symm⟩, rfl⟩

/-- Witness for C3: both account kinds at a concrete successful call. -/
theorem bridge_submission_shape_witness :
    bridgeA AccountKind.standard optsArb ⟨none⟩ none 1 envFix true
      = (Except.ok
          { hash := "hashB", fee := 1000, bridgeFee := 10000,
            approveHash := some "hashA" },
         [Submission.single bundleStdFix.approveTx,
          Submission.single bundleStdFix.oftTx], trStdFix) ∧
    ((∃ b oftAddr sp,
        (getBridgeTransactions AccountKind.standard 1 optsArb envFix).fst
          = Except.ok b ∧
        [Submission.single bundleStdFix.approveTx,
         Submission.single bundleStdFix.oftTx]
          = [Submission.single b.approveTx, Submission.single b.oftTx] ∧
        b.approveTx.data = CallData.approve oftAddr optsArb.amount ∧
        b.oftTx.data = CallData.oftSend sp envFix.oftNativeFee envFix.address) ∧
      (some "hashA" : Option String) = some (envFix.sendHash 0) ∧
      ("hashB" : String) = envFix.sendHash 1 ∧
      (envFix.sendHash 0 ≠ envFix.sendHash 1 →
        (some "hashA" : Option String) ≠ some "hashB")) :=
  ⟨by decide,
    bridge_submission_shape.1 optsArb ⟨none⟩ none 1 envFix
      { hash := "hashB", fee := 1000, bridgeFee := 10000,
        approveHash := some "hashA" }
      [Submission.single bundleStdFix.approveTx,
       Submission.single bundleStdFix.oftTx] trStdFix (by decide)⟩

/-- C4: the bridge-contract resolver probes candidates in the fixed order
primary, legacy, secondary-asset; it skips the primary kind entirely when
the target chain is `'ton'` or `'tron'`; the token comparison is
case-insensitive; and the first match wins.  The loop of variants A and C
(`probeLoop` over `keyOrder`), the straight-line version of variant B
(`probeB`) and the condition-table version of variant D (`probeD`) all
compute the spec's first-match resolution (`specResolve`), and the result
is invariant under re-casing the requested token. -/
theorem resolver_probe_order :
    ∀ (cfg : ChainEntry) (targetChain token : String) (env : Env),
      (probeLoop cfg targetChain token env keyOrder).fst
        = specResolve cfg targetChain token env ∧
      probeB cfg targetChain token env
        = (probeLoop cfg targetChain token env keyOrder).fst ∧
      probeD cfg targetChain token env
        = (probeLoop cfg targetChain token env keyOrder).fst ∧
      (∀ token' : String, lowerStr token' = lowerStr token →
        (probeLoop cfg targetChain token' env keyOrder).fst
          = (probeLoop cfg targetChain token env keyOrder).fst) := by
  intro cfg tc token env
  refine ⟨?_, ?_, ?_, ?_⟩
  · rw [probeLoop_fst_find, specResolve, specCandidates_eq_filterMap]
  · rw [probeLoop_fst_find]
    obtain ⟨o, l, x, tvh, eid, cid⟩ := cfg
    by_cases hton : (tc == "ton" || tc == "tron") = true <;>
      cases o <;> cases l <;> cases x <;>
        simp [probeB, keyOrder, ChainEntry.contractOf, hton,
          List.filterMap_cons, List.find?_cons] <;>
        (try split_ifs <;> simp_all)
  · rw [probeLoop_fst_find]
    obtain ⟨o, l, x, tvh, eid, cid⟩ := cfg
    by_cases hton : (tc == "ton" || tc == "tron") = true <;>
      cases o <;> cases l <;> cases x <;>
        simp [probeD, probeDLoop, contractTypesD, checkContractForToken,
          keyOrder, ChainEntry.contractOf, hton, List.filterMap_cons,
          List.find?_cons] <;>
        (try split_ifs <;> simp_all)
  · intro token' h
    exact congrArg Prod.fst
      (probeLoop_lowerStr_invariant cfg tc env token token' h keyOrder)

/-- Witness for C4 at a concrete registry entry, target and token. -/
theorem resolver_probe_order_witness :
    ((probeLoop ethEntryFix "arbitrum" TOKEN envFix keyOrder).fst
        = specResolve ethEntryFix "arbitrum" TOKEN envFix ∧
      probeB ethEntryFix "arbitrum" TOKEN envFix
        = (probeLoop ethEntryFix "arbitrum" TOKEN envFix keyOrder).fst ∧
      probeD ethEntryFix "arbitrum" TOKEN envFix
        = (probeLoop ethEntryFix "arbitrum" TOKEN envFix keyOrder).fst ∧
      (∀ token' : String, lowerStr token' = lowerStr TOKEN →
        (probeLoop ethEntryFix "arbitrum" token' envFix keyOrder).fst
          = (probeLoop ethEntryFix "arbitrum" TOKEN envFix keyOrder).fst)) ∧
    lowerStr "0xfd086bc7cd5c481dcc9c85ebe478a1c0b69fcbb9" = lowerStr TOKEN ∧
    (probeLoop ethEntryFix "arbitrum"
        "0xfd086bc7cd5c481dcc9c85ebe478a1c0b69fcbb9" envFix keyOrder).fst
      = (probeLoop ethEntryFix "arbitrum" TOKEN envFix keyOrder).fst :=
  ⟨resolver_probe_order ethEntryFix "arbitrum" TOKEN envFix, by decide,
    (resolver_probe_order ethEntryFix "arbitrum" TOKEN envFix).2.2.2
      "0xfd086bc7cd5c481dcc9c85ebe478a1c0b69fcbb9" (by decide)⟩

/-- C5 counterexample: in variant A (`_getOftContract` without the
equality guard) a bridge whose target chain equals the source chain is NOT
rejected: resolution from source chain id 1 towards `'ethereum'` returns
the primary contract, and the whole `bridge` call succeeds. -/
theorem sameChain_resolution_succeeds :
    (getOftContractTr 1 "ethereum" TOKEN envFix).fst
      = Except.ok (some oftEthAddr) ∧
    (getOftContractTr 1 "ethereum" TOKEN envFix).fst
      ≠ Except.error BridgeError.invalidTarget ∧
    (bridgeA AccountKind.standard optsEth ⟨none⟩ none 1 envFix true).fst
      = Except.ok
          { hash := "hashB", fee := 1000, bridgeFee := 10000,
            approveHash := some "hashA" } :=
  ⟨by decide, by decide, by decide⟩

/-- C5 (amended): variant C's `_getOftContract` — the variant carrying the
equality guard — fails with the invalid-target error whenever the resolved
source chain's id equals the target chain's registry id, before any
token-binding network read. -/
theorem variantC_rejects_sameChain :
    ∀ (chainId : Nat) (targetChain token : String) (env : Env)
      (cfgT cfgS : ChainEntry),
      lookupBlockchain targetChain = some cfgT →
      getSourceChainConfiguration chainId = some cfgS →
      cfgT.chainId = cfgS.chainId →
      getOftContractC chainId targetChain token env
        = (Except.error BridgeError.invalidTarget, []) := by
  intro chainId tc token env cfgT cfgS ht hs heq
  unfold getOftContractC
  rw [if_neg (by rw [ht]; simp)]
  rw [hs, ht]
  simp [heq]

/-- Witness for C5's amended statement: source chain id 1 and target
`'ethereum'`. -/
theorem variantC_rejects_sameChain_witness :
    lookupBlockchain "ethereum" = some ethEntryFix ∧
    getSourceChainConfiguration 1 = some ethEntryFix ∧
    getOftContractC 1 "ethereum" TOKEN envFix
      = (Except.error BridgeError.invalidTarget, []) :=
  ⟨by decide, by decide,
    variantC_rejects_sameChain 1 "ethereum" TOKEN envFix ethEntryFix
      ethEntryFix (by decide) (by decide) rfl⟩

/-- C6 counterexample: with a token-denominated fee quote of 1 and amount
100, variant A approves the helper for `100 + 1 * 1100 / 1000 = 101`
(BigInt arithmetic rounds the buffer term down), while the claim's
`ceil(amount + bridgeFee * 1.10)` is 102. -/
theorem erc4337_approveAmount_not_ceil :
    ((getBridgeTransactions AccountKind.erc4337 42161 optsEth envFix).fst.map
        (fun b => b.approveTx.data))
      = Except.ok (CallData.approve helperArbAddr 101) ∧
    specApprovalAmountCeil 100 1 = 102 ∧
    (101 : ℤ) ≠ 102 := by
  refine ⟨by decide, ?_, by norm_num⟩
  rw [specApprovalAmountCeil]
  have h1 : (((100 : Nat) : ℚ) + ((1 : Nat) : ℚ) * (11 / 10)) = 1011 / 10 := by
    push_cast
    norm_num
  rw [h1, Int.ceil_eq_iff]
  constructor <;> norm_num

/-- C6 (amended): in variant A, the account-abstraction approval approves
the fee-conversion helper for exactly
`amount + floor(bridgeFee * 1100 / 1000)`, that is
`amount + bridgeFee + floor(bridgeFee / 10)` — the 10% buffer rounded
down, not up. -/
theorem erc4337_approveAmount_floor_buffer :
    ∀ (chainId : Nat) (opts : BridgeOptions) (env : Env) (b : TxBundle)
      (tr : List NetEvent),
      getBridgeTransactions AccountKind.erc4337 chainId opts env
        = (Except.ok b, tr) →
      ∃ helperAddr,
        getTransactionValueHelperContract chainId = Except.ok helperAddr ∧
        b.approveTx.toAddr = opts.token ∧
        b.approveTx.data
          = CallData.approve helperAddr
              (opts.amount + env.helperTokenFee * ERC_4337_FEE_BUFFER / 1000) ∧
        opts.amount + env.helperTokenFee * ERC_4337_FEE_BUFFER / 1000
          = opts.amount + env.helperTokenFee + env.helperTokenFee / 10 ∧
        b.bridgeFee = env.helperTokenFee := by
  intro chainId opts env b tr h
  obtain ⟨hsh, -⟩ :=
    getBridgeTransactions_shape AccountKind.erc4337 chainId opts env b tr h
  obtain ⟨helperAddr, oftAddr, sp, hhh, hap, hot, hbf⟩ := hsh rfl
  refine ⟨helperAddr, hhh, by rw [hap], by rw [hap], ?_, hbf⟩
  unfold ERC_4337_FEE_BUFFER
  omega

/-- Witness for C6's amended statement: source arbitrum, fee quote 1,
amount 100. -/
theorem erc4337_approveAmount_floor_buffer_witness :
    getBridgeTransactions AccountKind.erc4337 42161 optsEth envFix
      = (Except.ok bundle4337Fix, tr4337Fix) ∧
    (∃ helperAddr,
      getTransactionValueHelperContract 42161 = Except.ok helperAddr ∧
      bundle4337Fix.approveTx.toAddr = optsEth.token ∧
      bundle4337Fix.approveTx.data
        = CallData.approve helperAddr
            (optsEth.amount
              + envFix.helperTokenFee * ERC_4337_FEE_BUFFER / 1000) ∧
      optsEth.amount + envFix.helperTokenFee * ERC_4337_FEE_BUFFER / 1000
        = optsEth.amount + envFix.helperTokenFee + envFix.helperTokenFee / 10 ∧
      bundle4337Fix.bridgeFee = envFix.helperTokenFee) :=
  ⟨by decide,
    erc4337_approveAmount_floor_buffer 42161 optsEth envFix bundle4337Fix
      tr4337Fix (by decide)⟩

/-- C7 counterexample: a malformed recipient is only rejected during
send-parameter construction, AFTER the resolver's token-binding network
read — the failure's trace already contains a network call, so the
operation does not fail before any network call is made. -/
theorem invalidRecipient_after_network_read :
    getBridgeTransactions AccountKind.standard 42161 optsEthBadRecipient
        envBadRecipient
      = (Except.error BridgeError.invalidRecipient,
         [NetEvent.tokenRead oftArbAddr]) ∧
    ([NetEvent.tokenRead oftArbAddr] : List NetEvent) ≠ [] :=
  ⟨by decide, by decide⟩

/-- C7 (amended): when the recipient cannot be encoded for the target
family, the operation fails with the invalid-recipient error during
send-parameter construction — after the resolver's read-only token reads
(the failure trace holds token reads only, never a fee quote) and before
any transaction is constructed or submitted. -/
theorem invalidRecipient_before_quote_and_dispatch :
    ∀ (kind : AccountKind) (chainId : Nat) (opts : BridgeOptions) (env : Env)
      (a : String) (trp : List NetEvent),
      env.encodeRecipient opts.targetChain opts.recipient = none →
      getOftContractTr chainId opts.targetChain opts.token env
        = (Except.ok (some a), trp) →
      getBridgeTransactions kind chainId opts env
        = (Except.error BridgeError.invalidRecipient, trp) ∧
      (∀ e ∈ trp, ∃ x, e = NetEvent.tokenRead x) ∧
      (∀ (pcfg : ProtocolConfig) (config : Option ProtocolConfig),
        (bridgeA kind opts pcfg config chainId env true).snd.fst = []) := by
  intro kind chainId opts env a trp henc hres
  have hgbt : getBridgeTransactions kind chainId opts env
      = (Except.error BridgeError.invalidRecipient, trp) := by
    unfold getBridgeTransactions buildOftSendParam
    rw [hres, henc]
  refine ⟨hgbt,
    getOftContractTr_trace_tokenReads chainId opts.targetChain opts.token env
      (some a) trp hres, ?_⟩
  intro pcfg config
  cases kind with
  | readOnly => rfl
  | standard =>
    rw [bridgeA_error_eq AccountKind.standard opts pcfg config chainId env
      BridgeError.invalidRecipient trp (by decide) hgbt]
  | erc4337 =>
    rw [bridgeA_error_eq AccountKind.erc4337 opts pcfg config chainId env
      BridgeError.invalidRecipient trp (by decide) hgbt]

/-- Witness for C7's amended statement at a concrete malformed-recipient
environment. -/
theorem invalidRecipient_before_quote_and_dispatch_witness :
    envBadRecipient.encodeRecipient optsEthBadRecipient.targetChain
        optsEthBadRecipient.recipient = none ∧
    getOftContractTr 42161 optsEthBadRecipient.targetChain
        optsEthBadRecipient.token envBadRecipient
      = (Except.ok (some oftArbAddr), [NetEvent.tokenRead oftArbAddr]) ∧
    (getBridgeTransactions AccountKind.standard 42161 optsEthBadRecipient
        envBadRecipient
      = (Except.error BridgeError.invalidRecipient,
          [NetEvent.tokenRead oftArbAddr]) ∧
      (∀ e ∈ [NetEvent.tokenRead oftArbAddr], ∃ x, e = NetEvent.tokenRead x) ∧
      (∀ (pcfg : ProtocolConfig) (config : Option ProtocolConfig),
        (bridgeA AccountKind.standard optsEthBadRecipient pcfg config 42161
          envBadRecipient true).snd.fst = [])) :=
  ⟨rfl, by decide,
    invalidRecipient_before_quote_and_dispatch AccountKind.standard 42161
      optsEthBadRecipient envBadRecipient oftArbAddr
      [NetEvent.tokenRead oftArbAddr] rfl (by decide)⟩

/-- C8 counterexample: on a standard account, a `bridgeMaxFee` of 0 passed
through the per-call `config` argument is ignored by variant A's `bridge`:
with no constructor ceiling the call succeeds and submits both
transactions instead of failing with the fee-exceeded error. -/
theorem standard_bridge_ignores_config_ceiling :
    (bridgeA AccountKind.standard optsArb ⟨none⟩ (some ⟨some 0⟩) 1 envFix
        true).fst
      = Except.ok
          { hash := "hashB", fee := 1000, bridgeFee := 10000,
            approveHash := some "hashA" } ∧
    (bridgeA AccountKind.standard optsArb ⟨none⟩ (some ⟨some 0⟩) 1 envFix
        true).snd.fst
      = [Submission.single bundleStdFix.approveTx,
         Submission.single bundleStdFix.oftTx] ∧
    (bridgeA AccountKind.standard optsArb ⟨none⟩ (some ⟨some 0⟩) 1 envFix
        true).fst
      ≠ Except.error BridgeError.feeExceeded :=
  ⟨by decide, by decide, by decide⟩

/-- C8 (amended): in variant A's `bridge`, a per-call `config` replaces
the constructor configuration for the max-fee check only on ERC-4337
accounts; the standard-account path reads `this._config.bridgeMaxFee`
exclusively, so its behaviour is independent of the `config` argument. -/
theorem maxFee_override_semantics :
    (∀ (opts : BridgeOptions) (pcfg c : ProtocolConfig) (chainId : Nat)
        (env : Env),
        bridgeA AccountKind.erc4337 opts pcfg (some c) chainId env true
          = bridgeA AccountKind.erc4337 opts c none chainId env true) ∧
    (∀ (opts : BridgeOptions) (pcfg : ProtocolConfig)
        (config : Option ProtocolConfig) (chainId : Nat) (env : Env),
        bridgeA AccountKind.standard opts pcfg config chainId env true
          = bridgeA AccountKind.standard opts pcfg none chainId env true) := by
  constructor
  · intro opts pcfg c chainId env
    rcases hgb : getBridgeTransactions AccountKind.erc4337 chainId opts env
      with ⟨er, tr0⟩
    cases er with
    | error e =>
      rw [bridgeA_error_eq AccountKind.erc4337 opts pcfg (some c) chainId env
          e tr0 (by decide) hgb,
        bridgeA_error_eq AccountKind.erc4337 opts c none chainId env
          e tr0 (by decide) hgb]
    | ok b =>
      rw [bridgeA_erc4337_eq opts pcfg (some c) chainId env b tr0 hgb,
        bridgeA_erc4337_eq opts c none chainId env b tr0 hgb]
  · intro opts pcfg config chainId env
    rcases hgb : getBridgeTransactions AccountKind.standard chainId opts env
      with ⟨er, tr0⟩
    cases er with
    | error e =>
      rw [bridgeA_error_eq AccountKind.standard opts pcfg config chainId env
          e tr0 (by decide) hgb,
        bridgeA_error_eq AccountKind.standard opts pcfg none chainId env
          e tr0 (by decide) hgb]
    | ok b =>
      rw [bridgeA_standard_eq opts pcfg config chainId env b tr0 hgb,
        bridgeA_standard_eq opts pcfg none chainId env b tr0 hgb]

/-- C9: when the connected network's chain id is not in the registry,
variant A's source-chain guards interpolate `configuration.chainId` with
`configuration === null`, so both `_getOftContract` (for any supported
target chain) and `_getTransactionValueHelperContract` fail with a
`TypeError` (a null dereference), not with the descriptive
unsupported-chain error naming the id that their messages intend. -/
theorem unregistered_chain_null_dereference :
    (∀ (chainId : Nat) (targetChain token : String) (env : Env),
        (lookupBlockchain targetChain).isSome = true →
        getSourceChainConfiguration chainId = none →
        getOftContractTr chainId targetChain token env
          = (Except.error BridgeError.nullDereference, [])) ∧
    (∀ chainId : Nat,
        getSourceChainConfiguration chainId = none →
        getTransactionValueHelperContract chainId
          = Except.error BridgeError.nullDereference) ∧
    (∀ n : Nat,
        (BridgeError.nullDereference : BridgeError)
          ≠ BridgeError.sourceChainNotSupported n) := by
  refine ⟨?_, ?_, fun n h => by cases h⟩
  · intro chainId tc token env ht hs
    have hne : ¬ (lookupBlockchain tc).isNone = true := by
      rw [Option.isNone_iff_eq_none]
      intro hn
      rw [hn] at ht
      simp at ht
    unfold getOftContractTr
    rw [if_neg hne, hs]
  · intro chainId hs
    unfold getTransactionValueHelperContract
    rw [hs]

/-- Witness for C9: connected chain id 56, which no registry entry
carries. -/
theorem unregistered_chain_null_dereference_witness :
    (lookupBlockchain "ethereum").isSome = true ∧
    getSourceChainConfiguration 56 = none ∧
    getOftContractTr 56 "ethereum" TOKEN envFix
      = (Except.error BridgeError.nullDereference, []) ∧
    getTransactionValueHelperContract 56
      = Except.error BridgeError.nullDereference :=
  ⟨by decide, by decide,
    unregistered_chain_null_dereference.1 56 "ethereum" TOKEN envFix
      (by decide) (by decide),
    unregistered_chain_null_dereference.2.1 56 (by decide)⟩

/-- C10: an adapter whose connected chain id is the `ton` entry's (30343)
or the `tron` entry's (728126428) resolves a source configuration that
lists no bridge contracts, so for every registered target chain and every
token the probe finds no candidate and `_getBridgeTransactions` fails with
the unsupported-token error naming the token — by construction a different
error from (and never) the unsupported-chain error. -/
theorem nonEvm_source_fails_unsupportedToken :
    ∀ (kind : AccountKind) (opts : BridgeOptions) (env : Env)
      (cfgT : ChainEntry),
      lookupBlockchain opts.targetChain = some cfgT →
      (getBridgeTransactions kind 30343 opts env).fst
          = Except.error (BridgeError.tokenNotSupported opts.token) ∧
      (getBridgeTransactions kind 728126428 opts env).fst
          = Except.error (BridgeError.tokenNotSupported opts.token) := by
  intro kind opts env cfgT ht
  have hton : getOftContractTr 30343 opts.targetChain opts.token env
      = (Except.ok none, []) := by
    unfold getOftContractTr
    rw [if_neg (by rw [ht]; simp)]
    rw [show getSourceChainConfiguration 30343 = some tonEntryFix by decide]
    show (match probeLoop tonEntryFix opts.targetChain opts.token env keyOrder
          with
          | (r, tr) => ((Except.ok r : Except BridgeError (Option String)), tr))
        = (Except.ok none, [])
    rw [probeLoop_all_absent tonEntryFix opts.targetChain opts.token env
      rfl rfl rfl]
  have htron : getOftContractTr 728126428 opts.targetChain opts.token env
      = (Except.ok none, []) := by
    unfold getOftContractTr
    rw [if_neg (by rw [ht]; simp)]
    rw [show getSourceChainConfiguration 728126428 = some tronEntryFix
      by decide]
    show (match probeLoop tronEntryFix opts.targetChain opts.token env keyOrder
          with
          | (r, tr) => ((Except.ok r : Except BridgeError (Option String)), tr))
        = (Except.ok none, [])
    rw [probeLoop_all_absent tronEntryFix opts.targetChain opts.token env
      rfl rfl rfl]
  constructor
  · unfold getBridgeTransactions
    rw [hton]
  · unfold getBridgeTransactions
    rw [htron]

/-- Witness for C10: a standard account targeting `'ethereum'`. -/
theorem nonEvm_source_fails_unsupportedToken_witness :
    lookupBlockchain optsEth.targetChain = some ethEntryFix ∧
    ((getBridgeTransactions AccountKind.standard 30343 optsEth envFix).fst
        = Except.error (BridgeError.tokenNotSupported optsEth.token) ∧
      (getBridgeTransactions AccountKind.standard 728126428 optsEth
          envFix).fst
        = Except.error (BridgeError.tokenNotSupported optsEth.token)) :=
  ⟨by decide,
    nonEvm_source_fails_unsupportedToken AccountKind.standard optsEth envFix
      ethEntryFix (by decide)⟩

end Usdt0
